import Mathlib

/-!
Verification of the JamCamping client: search relevance scorer and swipe
stage navigator.

The repository ships several iterated drafts of the same application file
(`src/unnamed/part_000`, `part_001`, `part_002`).  Two of them carry the
logic the specification describes, and they differ in details, so both are
embedded here:

* namespace `P1` models the draft shared by `part_000`/`part_001`:
  `calculateSearchScore` / `searchContent` / `handleSearch` and the
  navigator without an `isAnimating` lock (`goToStage` checks
  `index !== currentStage`).
* namespace `P2` models `part_002`: `performSearch` (per-word scoring with
  an extra `searchText` weight, top 8), and the navigator with the
  `isAnimating` lock, snap-back and rubber-band dampening (`goToStage`
  does not check `index !== currentStage`).

JavaScript numbers are modelled by `ℚ` (all arithmetic involved is exact:
pixel coordinates, millisecond timestamps, and divisions thereof);
`undefined` numeric variables are modelled by `Option ℚ` with `none`
propagating like NaN (every `<` comparison against `none` is `false`, as
every comparison against NaN is false in JavaScript).  Stage indices are
`ℤ` (they are arbitrary JS integers before the bounds checks).  Scores are
`ℕ` (sums of the literals 10/5/8/3).
-/

/-- JavaScript `hay.includes(needle)`: substring containment, modelled as
infix containment of the character lists. -/
def jsIncludes (hay needle : String) : Bool :=
  decide (needle.data <:+: hay.data)

/-- JavaScript `s.toLowerCase()`: lowercase every character.  (the
built-in `String.toLower` is the same map over the characters, but it is
defined by well-founded recursion over byte positions, which the kernel
cannot evaluate; this structural form evaluates.) -/
def jsToLower (s : String) : String := String.mk (s.data.map Char.toLower)

/-- JavaScript truthiness test followed by a containment test, modelling
`field && field.toLowerCase().includes(q)` for an optional string field:
an absent (`undefined`) or empty string field is falsy and never matches. -/
def truthyIncludes (field : Option String) (q : String) : Bool :=
  match field with
  | some s => !(s == "") && jsIncludes (jsToLower s) q
  | none => false

/-- A searchable record as consumed by `calculateSearchScore` in the
`part_001` draft: projects and shop items both expose `title`,
`description` and an optional `category`. -/
structure Item where
  id : ℕ
  title : String
  description : String
  category : Option String
deriving DecidableEq

/-- A search result as pushed by `searchContent` (`part_001`). -/
structure SearchResult where
  type : String
  id : ℕ
  title : String
  description : String
  score : ℕ
deriving DecidableEq

/-! ### Stable descending sort by a natural-number key

JavaScript `Array.prototype.sort` is stable (ES2019), and the source sorts
with the comparator `(a, b) => b.score - a.score`.  A stable sort for a
total preorder is extensionally unique, so it is modelled by insertion
sort for the relation "left key is at least right key", which is stable:
a newly inserted element (earlier in encounter order) lands before every
equal-keyed element already present (all later in encounter order). -/

/-- Descending order on the key `k`. -/
def keyDesc {α : Type} (k : α → ℕ) (a b : α) : Prop := k b ≤ k a

instance {α : Type} (k : α → ℕ) : DecidableRel (keyDesc k) :=
  fun a b => Nat.decLe (k b) (k a)

instance {α : Type} (k : α → ℕ) : IsTotal α (keyDesc k) :=
  ⟨fun a b => Nat.le_total (k b) (k a)⟩

instance {α : Type} (k : α → ℕ) : IsTrans α (keyDesc k) :=
  ⟨fun _ _ _ hab hbc => Nat.le_trans hbc hab⟩

theorem beq_key_eq {α : Type} (k : α → ℕ) (s : ℕ) (a : α) (h : k a = s) :
    (k a == s) = true := by simp [h]

theorem beq_key_ne {α : Type} (k : α → ℕ) (s : ℕ) (a : α) (h : ¬ k a = s) :
    (k a == s) = false := by simp [h]

theorem filter_key_orderedInsert {α : Type} (k : α → ℕ) (s : ℕ) (a : α) :
    ∀ m : List α,
      (List.orderedInsert (keyDesc k) a m).filter (fun x => k x == s) =
        if k a = s then a :: m.filter (fun x => k x == s)
        else m.filter (fun x => k x == s)
  | [] => by
    by_cases has : k a = s
    · simp [List.orderedInsert, List.filter, has, beq_key_eq k s a has]
    · simp [List.orderedInsert, List.filter, has, beq_key_ne k s a has]
  | b :: m => by
    by_cases hab : keyDesc k a b
    · rw [List.orderedInsert, if_pos hab]
      by_cases has : k a = s
      · simp [List.filter, has, beq_key_eq k s a has]
      · simp [List.filter, has, beq_key_ne k s a has]
    · rw [List.orderedInsert, if_neg hab]
      have hb : k a < k b := Nat.lt_of_not_le hab
      by_cases has : k a = s
      · have hbs : ¬ k b = s := by omega
        simp [List.filter, filter_key_orderedInsert k s a m, has,
          beq_key_ne k s b hbs]
      · by_cases hbs : k b = s
        · simp [List.filter, filter_key_orderedInsert k s a m, has,
            beq_key_eq k s b hbs]
        · simp [List.filter, filter_key_orderedInsert k s a m, has,
            beq_key_ne k s b hbs]

/-- Stability of the modelled sort: for every key value, the sorted list
restricted to that key is the input list restricted to that key, i.e.
ties keep encounter order. -/
theorem filter_key_insertionSort {α : Type} (k : α → ℕ) (s : ℕ) :
    ∀ l : List α,
      (List.insertionSort (keyDesc k) l).filter (fun x => k x == s) =
        l.filter (fun x => k x == s)
  | [] => rfl
  | a :: l => by
    rw [List.insertionSort, filter_key_orderedInsert k s a]
    by_cases has : k a = s
    · simp [List.filter, has, beq_key_eq k s a has,
        filter_key_insertionSort k s l]
    · simp [List.filter, has, beq_key_ne k s a has,
        filter_key_insertionSort k s l]

/-- Pushing an element exactly when its computed score is positive is the
same as mapping and then filtering on positivity. -/
theorem filterMap_guard_eq {α β : Type} (f : α → β) (k : β → ℕ) :
    ∀ l : List α,
      (l.filterMap fun a => if 0 < k (f a) then some (f a) else none) =
        (l.map f).filter (fun b => decide (0 < k b))
  | [] => rfl
  | a :: l => by
    by_cases h : 0 < k (f a) <;>
      simp [List.filterMap_cons, List.filter, h, filterMap_guard_eq f k l]

/-! ### Search, draft `part_001` (`calculateSearchScore` / `searchContent`) -/

namespace P1

/-- Model of `calculateSearchScore(query, item)` from `part_001`
(lines 710-725): case-insensitive substring containment against three
fields with additive weights 10 / 5 / 8; the query is already
lowercased by the caller.  The sequential `score += w` updates of the
source are the sequential `let` rebindings here. -/
def calculateSearchScore (query : String) (item : Item) : ℕ :=
  let score : ℕ := 0
  let title := jsToLower item.title
  let description := jsToLower item.description
  let score := if jsIncludes title query then score + 10 else score
  let score := if jsIncludes description query then score + 5 else score
  let score := if truthyIncludes item.category query then score + 8 else score
  score

/-- The result record `searchContent` pushes for a project. -/
def projectResult (queryLower : String) (p : Item) : SearchResult :=
  ⟨"project", p.id, p.title, p.description, calculateSearchScore queryLower p⟩

/-- The result record `searchContent` pushes for a shop item. -/
def shopResult (queryLower : String) (item : Item) : SearchResult :=
  ⟨"shop", item.id, item.title, item.description, calculateSearchScore queryLower item⟩

/-- Model of `searchContent(query)` from `part_001` (lines 658-692):
score every project, then every shop item, keep the strictly positive
scores in encounter order, sort descending by score with the stable
JavaScript sort (`(a, b) => b.score - a.score`), and `slice(0, 10)`. -/
def searchContent (projects shopItems : List Item) (query : String) : List SearchResult :=
  let queryLower := jsToLower query
  let results :=
    (projects.filterMap fun project =>
      if 0 < (projectResult queryLower project).score
      then some (projectResult queryLower project) else none)
    ++ (shopItems.filterMap fun item =>
      if 0 < (shopResult queryLower item).score
      then some (shopResult queryLower item) else none)
  (List.insertionSort (keyDesc SearchResult.score) results).take 10

/-- Model of `handleSearch(query)` from `part_001` (lines 635-647): an
empty or shorter-than-2 query yields no results (the `!query` test of
the source is subsumed by the length test for strings), otherwise the
search runs.  The rendering of the results is outside the model. -/
def handleSearch (projects shopItems : List Item) (query : String) : List SearchResult :=
  if query.length < 2 then [] else searchContent projects shopItems query

end P1

/-- The combined candidate pool in encounter order, scored against the
lowercased query: all projects first, then all shop items.  Stated from
the words of the specification ("projects and shop items together,
concatenated into one candidate pool") to compare `searchContent`
against. -/
def searchPool (projects shopItems : List Item) (query : String) : List SearchResult :=
  projects.map (P1.projectResult (jsToLower query))
    ++ shopItems.map (P1.shopResult (jsToLower query))

/-- The members of the candidate pool with strictly positive score, in
encounter order (the inclusion predicate of the specification). -/
def searchPositives (projects shopItems : List Item) (query : String) : List SearchResult :=
  (searchPool projects shopItems query).filter (fun r => decide (0 < r.score))

/-! ### Search, draft `part_002` (`buildSearchIndex` / `performSearch`) -/

namespace P2

/-- A project record as read from `projects.json` (the fields
`buildSearchIndex` uses). -/
structure Project where
  id : ℕ
  title : String
  description : String
  category : String
  difficulty : String
deriving DecidableEq

/-- A shop record as read from `shop.json` (the fields
`buildSearchIndex` uses). -/
structure ShopItem where
  id : ℕ
  title : String
  description : String
deriving DecidableEq

/-- An entry of `this.searchIndex` as built by `buildSearchIndex` in
`part_002` (lines 460-486). -/
structure IndexItem where
  id : ℕ
  type : String
  title : String
  description : String
  category : Option String
  difficulty : Option String
  searchText : String
deriving DecidableEq

/-- The index entry built for a project: `searchText` concatenates
title, description, category and difficulty, lowercased. -/
def projectIndexItem (p : Project) : IndexItem :=
  ⟨p.id, "project", p.title, p.description, some p.category, some p.difficulty,
    jsToLower (p.title ++ " " ++ p.description ++ " " ++ p.category ++ " " ++ p.difficulty)⟩

/-- The index entry built for a shop item: no category, no difficulty. -/
def shopIndexItem (item : ShopItem) : IndexItem :=
  ⟨item.id, "shop", item.title, item.description, none, none,
    jsToLower (item.title ++ " " ++ item.description)⟩

/-- Model of `buildSearchIndex()` from `part_002`: all projects first,
then all shop items. -/
def buildSearchIndex (projects : List Project) (shopItems : List ShopItem) : List IndexItem :=
  projects.map projectIndexItem ++ shopItems.map shopIndexItem

/-- Cut a character list at every whitespace character (a structural
version of splitting on single whitespace characters). -/
def splitWsAux : List Char → List Char → List String
  | [], acc => [String.mk acc.reverse]
  | c :: cs, acc =>
    if c.isWhitespace then String.mk acc.reverse :: splitWsAux cs []
    else splitWsAux cs (c :: acc)

/-- JavaScript `query.split(/\s+/)`: split on maximal whitespace runs; a
leading or trailing whitespace run contributes one empty field, and the
empty string splits to one empty field. -/
def jsSplitWs (q : String) : List String :=
  match q.data with
  | [] => [""]
  | c :: cs =>
    (if c.isWhitespace then [""] else [])
      ++ (splitWsAux (c :: cs) []).filter (fun w => !(w == ""))
      ++ (if ((c :: cs).getLastD c).isWhitespace then [""] else [])

/-- The score one query word contributes to one index entry in
`performSearch` (`part_002` lines 509-517): the 10 / 5 / 8 field
weights of the other draft plus 3 when the concatenated `searchText`
contains the word.  `searchText` is already lowercase, the word comes
from the lowercased query. -/
def scoreWord (item : IndexItem) (word : String) : ℕ :=
  let score : ℕ := 0
  let score := if jsIncludes (jsToLower item.title) word then score + 10 else score
  let score := if jsIncludes (jsToLower item.description) word then score + 5 else score
  let score := if truthyIncludes item.category word then score + 8 else score
  let score := if jsIncludes item.searchText word then score + 3 else score
  score

/-- The total `performSearch` score of one index entry: the sum of the
word scores over the whitespace-split query. -/
def itemScore (item : IndexItem) (query : String) : ℕ :=
  (jsSplitWs query).foldl (fun acc word => acc + scoreWord item word) 0

/-- A result record of `performSearch`: the index entry spread together
with its score (`{ ...item, score }`). -/
structure IndexResult where
  item : IndexItem
  score : ℕ
deriving DecidableEq

/-- Model of `performSearch(query)` from `part_002` (lines 505-525):
keep the strictly positive scores in index order, sort descending with
the stable JavaScript sort, and `slice(0, 8)`. -/
def performSearch (index : List IndexItem) (query : String) : List IndexResult :=
  let results :=
    index.filterMap fun item =>
      if 0 < (IndexResult.mk item (itemScore item query)).score
      then some (IndexResult.mk item (itemScore item query)) else none
  (List.insertionSort (keyDesc IndexResult.score) results).take 8

/-- Model of `handleSearch(query)` from `part_002` (lines 488-503): an
empty or shorter-than-2 query clears the results, otherwise
`performSearch` runs on the lowercased query. -/
def handleSearch (index : List IndexItem) (query : String) : List IndexResult :=
  if query.length < 2 then [] else performSearch index (jsToLower query)

end P2

/-! ### Stage navigator -/

/-- The fixed stage list, identical in every draft
(`this.stages` listing main, vendor, chill, submit, contact). -/
def stages : List String := ["main", "vendor", "chill", "submit", "contact"]

/-- JavaScript subtraction where either operand may be `undefined`
(producing NaN, modelled as `none`). -/
def jsSub : Option ℚ → Option ℚ → Option ℚ
  | some a, some b => some (a - b)
  | _, _ => none

/-- JavaScript `Math.abs(x) > threshold` where `x` may be NaN: every
comparison against NaN is false. -/
def jsAbsGt (threshold : ℚ) : Option ℚ → Bool
  | some q => decide (threshold < |q|)
  | none => false

/-- JavaScript `Math.abs(dx) / dt > threshold` where `dx` or `dt` may be
NaN: a NaN operand compares false; a zero `dt` with nonzero `dx` gives
Infinity (compares true), and `0 / 0` gives NaN (compares false). -/
def jsVelocityGt (threshold : ℚ) (dx dt : Option ℚ) : Bool :=
  match dx, dt with
  | some x, some d =>
    if d = 0 then decide (¬ x = 0) else decide (threshold < |x| / d)
  | _, _ => false

/-- JavaScript `x > 0` where `x` may be NaN (false for NaN). -/
def jsGtZero : Option ℚ → Bool
  | some q => decide (0 < q)
  | none => false

namespace P2

/-- The mutable navigator state of `part_002`: the class fields
`currentStage` / `isAnimating` plus the closure variables of
`setupGestureNavigation` (`startX`, `startY`, `startTime`, `currentX`,
`currentY`, `isDragging`).  The coordinate variables start out
`undefined` (`none`); `touchstart` never writes `currentX`/`currentY`. -/
structure NavState where
  currentStage : ℤ
  isAnimating : Bool
  isDragging : Bool
  startX : Option ℚ
  startY : Option ℚ
  startTime : Option ℚ
  currentX : Option ℚ
  currentY : Option ℚ
deriving DecidableEq

/-- The constructor state: `currentStage = 0`, `isAnimating = false`,
all gesture variables undefined. -/
def initState : NavState := ⟨0, false, false, none, none, none, none, none⟩

/-- The `stage_navigation` analytics event payload of `goToStage`. -/
structure NavEvent where
  fromStage : String
  toStage : String
  stageIndex : ℤ
deriving DecidableEq

/-- JavaScript `this.stages[i]` (out-of-range indexing never happens
behind the bounds guard; it would give `undefined`). -/
def stageName (i : ℤ) : String :=
  if 0 ≤ i then stages.getD i.toNat "undefined" else "undefined"

/-- Model of `goToStage(stageIndex)` from `part_002` (lines 354-386):
rejected when out of range or while animating; otherwise sets
`currentStage`, raises `isAnimating` (cleared 600 ms later by the
timeout, modelled as the separate `animationEnd` step) and emits one
`stage_navigation` event.  There is no `stageIndex !== currentStage`
check in this draft. -/
def goToStage (stageIndex : ℤ) (s : NavState) : NavState × List NavEvent :=
  if stageIndex < 0 ∨ (stages.length : ℤ) ≤ stageIndex ∨ s.isAnimating then (s, [])
  else
    ({ s with currentStage := stageIndex, isAnimating := true },
      [⟨stageName s.currentStage, stageName stageIndex, stageIndex⟩])

/-- Model of `snapToCurrentStage()`: `goToStage(this.currentStage)`. -/
def snapToCurrentStage (s : NavState) : NavState × List NavEvent :=
  goToStage s.currentStage s

/-- Model of `nextStage()` from `part_002` (lines 338-344). -/
def nextStage (s : NavState) : NavState × List NavEvent :=
  if s.currentStage < (stages.length : ℤ) - 1 then goToStage (s.currentStage + 1) s
  else snapToCurrentStage s

/-- Model of `previousStage()` from `part_002` (lines 346-352). -/
def previousStage (s : NavState) : NavState × List NavEvent :=
  if 0 < s.currentStage then goToStage (s.currentStage - 1) s
  else snapToCurrentStage s

/-- Model of the `touchstart` handler (lines 270-277): ignored while
animating; otherwise records the origin point and time and starts the
drag.  `currentX`/`currentY` are not touched. -/
def touchStart (x y t : ℚ) (s : NavState) : NavState :=
  if s.isAnimating then s
  else { s with startX := some x, startY := some y, startTime := some t,
                isDragging := true }

/-- Model of the state effect of the `touchmove` handler (lines
279-293): ignored unless a drag is in progress and no animation runs;
otherwise records the current point (unconditionally, before the
horizontal-swipe test — the visual `updateStagePosition` call is the
separate pure function below). -/
def touchMove (x y : ℚ) (s : NavState) : NavState :=
  if ¬ s.isDragging ∨ s.isAnimating then s
  else { s with currentX := some x, currentY := some y }

/-- The observable outcome of a `touchend`: which navigation method the
handler invoked (the methods themselves clamp at the boundaries). -/
inductive GestureOutcome
  | noGesture
  | committedPrevious
  | committedNext
  | snappedBack
deriving DecidableEq

/-- Model of the `touchend` handler from `part_002` (lines 295-314):
`deltaX = currentX - startX`, `velocity = |deltaX| / (now - startTime)`;
commit when `|deltaX| > 50` or `velocity > 0.3`, to `previousStage` when
`deltaX > 0` and to `nextStage` otherwise; below both thresholds snap
back to the current stage. -/
def touchEnd (t : ℚ) (s : NavState) : NavState × List NavEvent × GestureOutcome :=
  if ¬ s.isDragging then (s, [], .noGesture)
  else
    let deltaX := jsSub s.currentX s.startX
    let deltaTime := jsSub (some t) s.startTime
    let s1 := { s with isDragging := false }
    if jsAbsGt 50 deltaX || jsVelocityGt (3/10) deltaX deltaTime then
      if jsGtZero deltaX then
        ((previousStage s1).1, (previousStage s1).2, .committedPrevious)
      else
        ((nextStage s1).1, (nextStage s1).2, .committedNext)
    else
      ((snapToCurrentStage s1).1, (snapToCurrentStage s1).2, .snappedBack)

/-- The 600 ms `setTimeout` callback of `goToStage`: clears the
animation lock. -/
def animationEnd (s : NavState) : NavState := { s with isAnimating := false }

/-- Model of `getRubberBandDampening(deltaX)` from `part_002` (lines
326-332): 0.3 when the drag points past a boundary (right at the first
stage, left at the last), 1 otherwise. -/
def getRubberBandDampening (currentStage : ℤ) (deltaX : ℚ) : ℚ :=
  if (0 < deltaX ∧ currentStage = 0)
      ∨ (deltaX < 0 ∧ currentStage = (stages.length : ℤ) - 1)
  then 3/10 else 1

/-- Model of the offset computed by `updateStagePosition(offset)` from
`part_002` (lines 317-324), in viewport-width percent: the resting
offset of the current stage plus the dampened drag displacement. -/
def updateStagePosition (currentStage : ℤ) (offset viewportWidth : ℚ) : ℚ :=
  -(currentStage : ℚ) * 100
    + offset / viewportWidth * 100 * getRubberBandDampening currentStage offset

/-- One navigator command: the discrete methods, the drag lifecycle
events, and the animation-timeout expiry. -/
inductive Op
  | goTo (i : ℤ)
  | next
  | prev
  | snap
  | tStart (x y t : ℚ)
  | tMove (x y : ℚ)
  | tEnd (t : ℚ)
  | animEnd

/-- The state reached after one command (events discarded). -/
def step (s : NavState) : Op → NavState
  | .goTo i => (goToStage i s).1
  | .next => (nextStage s).1
  | .prev => (previousStage s).1
  | .snap => (snapToCurrentStage s).1
  | .tStart x y t => touchStart x y t s
  | .tMove x y => touchMove x y s
  | .tEnd t => (touchEnd t s).1
  | .animEnd => animationEnd s

/-- The state reached from the constructor state after a command
sequence. -/
def run (ops : List Op) : NavState := ops.foldl step initState

/-- The navigator invariant of the specification: `currentStage` is a valid
stage index. -/
def StageInvariant (s : NavState) : Prop :=
  0 ≤ s.currentStage ∧ s.currentStage < (stages.length : ℤ)

end P2

/-! ### Navigator, drafts `part_000`/`part_001`

These drafts have no `isAnimating` lock and no snap-back: `goToStage`
additionally requires `index !== this.currentStage`, and a `touchend`
below both thresholds does nothing.  The navigation methods return the
new `currentStage` and whether the visual/URL update ran (the
observable side effect inside the `if`). -/

namespace P1

/-- Model of `goToStage(index)` from `part_001` (lines 407-415). -/
def goToStage (cur idx : ℤ) : ℤ × Bool :=
  if 0 ≤ idx ∧ idx < (stages.length : ℤ) ∧ ¬ idx = cur then (idx, true)
  else (cur, false)

/-- Model of `nextStage()` from `part_001` (lines 423-430). -/
def nextStage (cur : ℤ) : ℤ × Bool :=
  if cur < (stages.length : ℤ) - 1 then (cur + 1, true) else (cur, false)

/-- Model of `previousStage()` from `part_001` (lines 438-445). -/
def previousStage (cur : ℤ) : ℤ × Bool :=
  if 0 < cur then (cur - 1, true) else (cur, false)

/-- Model of the `touchend` handler from `part_001` (lines 366-384):
same thresholds as `part_002`, but below both thresholds nothing
happens at all. -/
def touchEnd (cur : ℤ) (startX currentX startTime : Option ℚ) (t : ℚ) : ℤ × Bool :=
  let deltaX := jsSub currentX startX
  let deltaTime := jsSub (some t) startTime
  if jsAbsGt 50 deltaX || jsVelocityGt (3/10) deltaX deltaTime then
    if jsGtZero deltaX then previousStage cur else nextStage cur
  else (cur, false)

end P1

/-! ### Claim theorems -/

/-- C9: for every query that is empty or shorter than 2 characters,
search returns an empty result list — in both drafts (`handleSearch`
clears the results before `searchContent`/`performSearch` ever runs). -/
theorem short_query_returns_empty (projects shopItems : List Item)
    (index : List P2.IndexItem) (query : String) (h : query.length < 2) :
    P1.handleSearch projects shopItems query = []
      ∧ P2.handleSearch index query = [] := by
  unfold P1.handleSearch P2.handleSearch
  rw [if_pos h, if_pos h]
  exact ⟨rfl, rfl⟩

/-- Witness for C9 at the one-character query `"a"`. -/
theorem short_query_returns_empty_witness :
    "a".length < 2 ∧ P1.handleSearch [] [] "a" = [] ∧ P2.handleSearch [] "a" = [] :=
  ⟨by decide, short_query_returns_empty [] [] [] "a" (by decide)⟩

/-- C4: for every drag-move, the visual offset is
`baseOffset + deltaX / viewportWidth * 100 * dampening` with
`baseOffset = -currentStage * 100`, and the dampening is exactly 0.3
precisely when the drag points past a boundary (`deltaX > 0` at stage 0,
or `deltaX < 0` at the last stage), and exactly 1 otherwise. -/
theorem rubber_band_offset (cur : ℤ) (dx w : ℚ) (_hw : 0 < w) :
    P2.updateStagePosition cur dx w
        = -(cur : ℚ) * 100 + dx / w * 100 * P2.getRubberBandDampening cur dx
      ∧ (P2.getRubberBandDampening cur dx = 3/10 ↔
          (0 < dx ∧ cur = 0) ∨ (dx < 0 ∧ cur = (stages.length : ℤ) - 1))
      ∧ (P2.getRubberBandDampening cur dx = 1 ↔
          ¬ ((0 < dx ∧ cur = 0) ∨ (dx < 0 ∧ cur = (stages.length : ℤ) - 1))) := by
  refine ⟨rfl, ?_, ?_⟩
  · unfold P2.getRubberBandDampening
    split
    · simp_all
    · rename_i hcond
      simp only [hcond, iff_false]
      norm_num
  · unfold P2.getRubberBandDampening
    split
    · rename_i hcond
      simp only [hcond, iff_false]
      norm_num
    · simp_all

/-- Witness for C4: dragging right by 60 px at stage 0 on a 375 px
viewport is dampened to 0.3. -/
theorem rubber_band_offset_witness :
    (0 : ℚ) < 375
      ∧ (P2.updateStagePosition 0 60 375
            = -((0 : ℤ) : ℚ) * 100 + 60 / 375 * 100 * P2.getRubberBandDampening 0 60
          ∧ (P2.getRubberBandDampening 0 60 = 3/10 ↔
              ((0 : ℚ) < 60 ∧ (0 : ℤ) = 0)
                ∨ ((60 : ℚ) < 0 ∧ (0 : ℤ) = (stages.length : ℤ) - 1))
          ∧ (P2.getRubberBandDampening 0 60 = 1 ↔
              ¬ (((0 : ℚ) < 60 ∧ (0 : ℤ) = 0)
                ∨ ((60 : ℚ) < 0 ∧ (0 : ℤ) = (stages.length : ℤ) - 1)))) :=
  ⟨by norm_num, rubber_band_offset 0 60 375 (by norm_num)⟩

/-- C8: `next()` at the last stage index and `previous()` at index 0
leave `currentIndex` unchanged in the `part_002` draft (they snap back,
never wrap), and are strict no-ops in the `part_000`/`part_001` draft. -/
theorem boundary_clamp (s : P2.NavState) (cur : ℤ) :
    (s.currentStage = (stages.length : ℤ) - 1 →
        (P2.nextStage s).1.currentStage = s.currentStage)
      ∧ (s.currentStage = 0 → (P2.previousStage s).1.currentStage = 0)
      ∧ (cur = (stages.length : ℤ) - 1 → P1.nextStage cur = (cur, false))
      ∧ P1.previousStage 0 = (0, false) := by
  refine ⟨?_, ?_, ?_, by decide⟩
  · intro h
    unfold P2.nextStage P2.snapToCurrentStage P2.goToStage
    rw [if_neg (by omega)]
    split
    · rfl
    · rfl
  · intro h
    unfold P2.previousStage P2.snapToCurrentStage P2.goToStage
    rw [if_neg (by omega)]
    split
    · exact h
    · exact h
  · intro h
    unfold P1.nextStage
    rw [if_neg (by omega)]

/-- Witness for C8 at the boundary states themselves. -/
theorem boundary_clamp_witness :
    (P2.nextStage ⟨4, false, false, none, none, none, none, none⟩).1.currentStage = 4
      ∧ (P2.previousStage P2.initState).1.currentStage = 0
      ∧ P1.nextStage 4 = (4, false)
      ∧ P1.previousStage 0 = (0, false) :=
  ⟨(boundary_clamp ⟨4, false, false, none, none, none, none, none⟩ 4).1 (by decide),
   (boundary_clamp P2.initState 4).2.1 rfl,
   (boundary_clamp P2.initState 4).2.2.1 (by decide),
   (boundary_clamp P2.initState 4).2.2.2⟩

/-- C5: while `isAnimating` is true, `goToStage`, `nextStage`,
`previousStage`, `snapToCurrentStage` and `touchstart` all leave the
state untouched, emit no event, and start no drag. -/
theorem animating_locks (s : P2.NavState) (i : ℤ) (x y t : ℚ)
    (h : s.isAnimating = true) :
    P2.goToStage i s = (s, [])
      ∧ P2.nextStage s = (s, [])
      ∧ P2.previousStage s = (s, [])
      ∧ P2.snapToCurrentStage s = (s, [])
      ∧ P2.touchStart x y t s = s := by
  unfold P2.nextStage P2.previousStage P2.snapToCurrentStage P2.goToStage P2.touchStart
  simp [h]

/-- Witness for C5 in an animating state. -/
theorem animating_locks_witness :
    P2.goToStage 3 ⟨2, true, false, none, none, none, none, none⟩
        = (⟨2, true, false, none, none, none, none, none⟩, [])
      ∧ P2.nextStage ⟨2, true, false, none, none, none, none, none⟩
        = (⟨2, true, false, none, none, none, none, none⟩, [])
      ∧ P2.previousStage ⟨2, true, false, none, none, none, none, none⟩
        = (⟨2, true, false, none, none, none, none, none⟩, [])
      ∧ P2.snapToCurrentStage ⟨2, true, false, none, none, none, none, none⟩
        = (⟨2, true, false, none, none, none, none, none⟩, [])
      ∧ P2.touchStart 10 20 30 ⟨2, true, false, none, none, none, none, none⟩
        = ⟨2, true, false, none, none, none, none, none⟩ :=
  animating_locks ⟨2, true, false, none, none, none, none, none⟩ 3 10 20 30 rfl

/-- The bounds guard of `goToStage` protects the stage-index invariant. -/
theorem goToStage_stage_inv (i : ℤ) (s : P2.NavState) (h : P2.StageInvariant s) :
    P2.StageInvariant (P2.goToStage i s).1 := by
  unfold P2.goToStage P2.StageInvariant
  split
  · exact h
  · rename_i hg
    push_neg at hg
    dsimp only
    omega

theorem snap_stage_inv (s : P2.NavState) (h : P2.StageInvariant s) :
    P2.StageInvariant (P2.snapToCurrentStage s).1 :=
  goToStage_stage_inv s.currentStage s h

theorem nextStage_stage_inv (s : P2.NavState) (h : P2.StageInvariant s) :
    P2.StageInvariant (P2.nextStage s).1 := by
  unfold P2.nextStage
  split
  · exact goToStage_stage_inv _ s h
  · exact snap_stage_inv s h

theorem previousStage_stage_inv (s : P2.NavState) (h : P2.StageInvariant s) :
    P2.StageInvariant (P2.previousStage s).1 := by
  unfold P2.previousStage
  split
  · exact goToStage_stage_inv _ s h
  · exact snap_stage_inv s h

theorem touchEnd_stage_inv (t : ℚ) (s : P2.NavState) (h : P2.StageInvariant s) :
    P2.StageInvariant (P2.touchEnd t s).1 := by
  unfold P2.touchEnd
  split
  · exact h
  · dsimp only
    split
    · split
      · exact previousStage_stage_inv _ h
      · exact nextStage_stage_inv _ h
    · exact snap_stage_inv _ h

theorem step_stage_inv (s : P2.NavState) (op : P2.Op) (h : P2.StageInvariant s) :
    P2.StageInvariant (P2.step s op) := by
  cases op with
  | goTo i => exact goToStage_stage_inv i s h
  | next => exact nextStage_stage_inv s h
  | prev => exact previousStage_stage_inv s h
  | snap => exact snap_stage_inv s h
  | tStart x y t =>
    show P2.StageInvariant (P2.touchStart x y t s)
    unfold P2.touchStart
    split
    · exact h
    · exact h
  | tMove x y =>
    show P2.StageInvariant (P2.touchMove x y s)
    unfold P2.touchMove
    split
    · exact h
    · exact h
  | tEnd t => exact touchEnd_stage_inv t s h
  | animEnd => exact h

theorem foldl_stage_inv :
    ∀ (ops : List P2.Op) (s : P2.NavState), P2.StageInvariant s →
      P2.StageInvariant (ops.foldl P2.step s)
  | [], _, h => h
  | op :: ops, s, h => foldl_stage_inv ops (P2.step s op) (step_stage_inv s op h)

/-- C7: starting from the constructor state (`currentStage = 0`), every
sequence of navigator commands — `goToStage` with an arbitrary integer,
`nextStage`, `previousStage`, `snapToCurrentStage`, the whole drag
lifecycle and the animation timeout — keeps `currentStage` inside
`[0, stages.length - 1]`. -/
theorem stage_index_always_valid (ops : List P2.Op) :
    P2.StageInvariant (P2.run ops) :=
  foldl_stage_inv ops P2.initState ⟨by decide, by decide⟩

/-- C6 counterexample: in the `part_002` draft, `goToStage` of the
current index from the constructor state is not a no-op — it starts a
transition (the `isAnimating` lock is raised for the 600 ms duration)
and emits a `stage_navigation` event with `fromStage = toStage`. -/
theorem goTo_current_counterexample :
    (P2.goToStage 0 P2.initState).2 = [⟨"main", "main", 0⟩]
      ∧ (P2.goToStage 0 P2.initState).1.isAnimating = true
      ∧ (P2.goToStage 0 P2.initState).1.currentStage = 0 := by decide

/-- C6 amended: `goTo(i)` with `i = currentIndex` is a full no-op (state
unchanged, no visual/URL update) in the `part_000`/`part_001` draft; in
the `part_002` draft, whose `goToStage` lacks the
`index !== currentStage` check, it leaves `currentIndex` unchanged but
does start a transition (`isAnimating` raised) and does emit one
navigation event whose source and target stage coincide. -/
theorem goTo_current_amended (cur idx : ℤ) (s : P2.NavState)
    (hidx : idx = cur)
    (ha : s.isAnimating = false)
    (h0 : 0 ≤ s.currentStage) (h5 : s.currentStage < (stages.length : ℤ)) :
    P1.goToStage cur idx = (cur, false)
      ∧ (P2.goToStage s.currentStage s).1.currentStage = s.currentStage
      ∧ (P2.goToStage s.currentStage s).1.isAnimating = true
      ∧ (P2.goToStage s.currentStage s).2
          = [⟨P2.stageName s.currentStage, P2.stageName s.currentStage,
              s.currentStage⟩] := by
  subst hidx
  have hguard : ¬ (s.currentStage < 0 ∨ (stages.length : ℤ) ≤ s.currentStage
      ∨ s.isAnimating = true) := by
    rintro (hg | hg | hg)
    · omega
    · omega
    · rw [ha] at hg
      exact Bool.false_ne_true hg
  refine ⟨?_, ?_, ?_, ?_⟩
  · unfold P1.goToStage
    rw [if_neg (by simp)]
  · unfold P2.goToStage
    rw [if_neg hguard]
  · unfold P2.goToStage
    rw [if_neg hguard]
  · unfold P2.goToStage
    rw [if_neg hguard]

/-- Witness for the amended C6 statement at stage 2 of an idle state. -/
theorem goTo_current_amended_witness :
    P1.goToStage 2 2 = (2, false)
      ∧ (P2.goToStage 2 ⟨2, false, false, none, none, none, none, none⟩).1.currentStage = 2
      ∧ (P2.goToStage 2 ⟨2, false, false, none, none, none, none, none⟩).1.isAnimating = true
      ∧ (P2.goToStage 2 ⟨2, false, false, none, none, none, none, none⟩).2
          = [⟨P2.stageName 2, P2.stageName 2, 2⟩] :=
  goTo_current_amended 2 2 ⟨2, false, false, none, none, none, none, none⟩
    rfl rfl (by decide) (by decide)

/-- The snap-back transition never moves `currentStage`. -/
theorem snap_currentStage (s : P2.NavState) :
    (P2.snapToCurrentStage s).1.currentStage = s.currentStage := by
  unfold P2.snapToCurrentStage P2.goToStage
  split
  · rfl
  · rfl

/-- C10: a drag-start immediately followed by a drag-end, with no
drag-move ever having run since initialization (`currentX = none`,
i.e. `undefined`), commits no stage change: the end-of-gesture `deltaX`
is NaN, both commit thresholds compare false, and the handler snaps
back, leaving `currentStage` unchanged.  Moreover `touchstart` never
resets `currentX`, so any later no-move tap reads whatever coordinate
the previous gesture left behind. -/
theorem tap_without_move (s : P2.NavState) (x y t u : ℚ)
    (ha : s.isAnimating = false) (hc : s.currentX = none) :
    (P2.touchStart x y t s).currentX = none
      ∧ (P2.touchEnd u (P2.touchStart x y t s)).2.2 = .snappedBack
      ∧ (P2.touchEnd u (P2.touchStart x y t s)).1.currentStage = s.currentStage
      ∧ (∀ (s2 : P2.NavState) (a b c : ℚ),
          (P2.touchStart a b c s2).currentX = s2.currentX) := by
  have hts : P2.touchStart x y t s
      = { s with startX := some x, startY := some y, startTime := some t,
                 isDragging := true } := by
    unfold P2.touchStart
    rw [if_neg (by rw [ha]; exact Bool.false_ne_true)]
  refine ⟨?_, ?_, ?_, ?_⟩
  · rw [hts]
    exact hc
  · rw [hts]
    unfold P2.touchEnd
    rw [if_neg (by simp)]
    dsimp only
    rw [hc]
    rfl
  · rw [hts]
    unfold P2.touchEnd
    rw [if_neg (by simp)]
    dsimp only
    rw [hc]
    dsimp only [jsSub, jsAbsGt, jsVelocityGt, Bool.or_self]
    rw [if_neg (by simp)]
    exact snap_currentStage _
  · intro s2 a b c
    unfold P2.touchStart
    split
    · rfl
    · rfl

/-- Witness for C10: a tap on the freshly initialized navigator. -/
theorem tap_without_move_witness :
    (P2.touchStart 5 6 7 P2.initState).currentX = none
      ∧ (P2.touchEnd 8 (P2.touchStart 5 6 7 P2.initState)).2.2 = .snappedBack
      ∧ (P2.touchEnd 8 (P2.touchStart 5 6 7 P2.initState)).1.currentStage
          = P2.initState.currentStage
      ∧ (∀ (s2 : P2.NavState) (a b c : ℚ),
          (P2.touchStart a b c s2).currentX = s2.currentX) :=
  tap_without_move P2.initState 5 6 7 8 rfl rfl

/-- C2: for a completed drag with recorded coordinates and positive
elapsed time, the `part_002` `touchend` handler invokes `nextStage`
exactly when one of the two thresholds (`|deltaX| > 50` px or
`|deltaX| / elapsed > 0.3` px/ms) holds and `deltaX < 0`, invokes
`previousStage` exactly when a threshold holds and `deltaX > 0`, and
commits (one of the two) exactly when a threshold holds; below both
thresholds it snaps back and `currentStage` is unchanged. -/
theorem drag_commit_rule (s : P2.NavState) (cx sx st t : ℚ)
    (hd : s.isDragging = true) (hcx : s.currentX = some cx)
    (hsx : s.startX = some sx) (hst : s.startTime = some st)
    (ht : 0 < t - st) :
    ((P2.touchEnd t s).2.2 = .committedNext
        ∨ (P2.touchEnd t s).2.2 = .committedPrevious
      ↔ 50 < |cx - sx| ∨ 3/10 < |cx - sx| / (t - st))
      ∧ ((P2.touchEnd t s).2.2 = .committedNext
          ↔ (50 < |cx - sx| ∨ 3/10 < |cx - sx| / (t - st)) ∧ cx - sx < 0)
      ∧ ((P2.touchEnd t s).2.2 = .committedPrevious
          ↔ (50 < |cx - sx| ∨ 3/10 < |cx - sx| / (t - st)) ∧ 0 < cx - sx)
      ∧ (¬ (50 < |cx - sx| ∨ 3/10 < |cx - sx| / (t - st)) →
          (P2.touchEnd t s).2.2 = .snappedBack
            ∧ (P2.touchEnd t s).1.currentStage = s.currentStage) := by
  have htne : ¬ (t - st = 0) := ne_of_gt ht
  have hcompute : P2.touchEnd t s =
      (if 50 < |cx - sx| ∨ 3/10 < |cx - sx| / (t - st) then
        if 0 < cx - sx then
          ((P2.previousStage { s with isDragging := false }).1,
            (P2.previousStage { s with isDragging := false }).2, .committedPrevious)
        else
          ((P2.nextStage { s with isDragging := false }).1,
            (P2.nextStage { s with isDragging := false }).2, .committedNext)
      else
        ((P2.snapToCurrentStage { s with isDragging := false }).1,
          (P2.snapToCurrentStage { s with isDragging := false }).2, .snappedBack)) := by
    unfold P2.touchEnd
    rw [if_neg (by simp [hd])]
    dsimp only
    rw [hcx, hsx, hst]
    dsimp only [jsSub, jsAbsGt, jsVelocityGt, jsGtZero]
    rw [if_neg htne]
    by_cases hc : 50 < |cx - sx| ∨ 3/10 < |cx - sx| / (t - st)
    · rw [if_pos hc]
      have : (decide (50 < |cx - sx|) || decide (3/10 < |cx - sx| / (t - st))) = true := by
        rcases hc with hc | hc
        · simp [hc]
        · simp [hc]
      rw [if_pos this]
      by_cases hp : 0 < cx - sx
      · rw [if_pos hp, if_pos (by simp [hp])]
      · rw [if_neg hp, if_neg (by simp [hp])]
    · rw [if_neg hc]
      push_neg at hc
      rw [if_neg (by simp [not_lt_of_ge hc.1, not_lt_of_ge hc.2])]
  by_cases hc : 50 < |cx - sx| ∨ 3/10 < |cx - sx| / (t - st)
  · have hdx : ¬ cx - sx = 0 := by
      intro h0
      rcases hc with hcd | hcv
      · rw [h0] at hcd
        simp at hcd
        linarith
      · rw [h0] at hcv
        simp at hcv
        linarith
    rw [hcompute, if_pos hc]
    by_cases hp : 0 < cx - sx
    · rw [if_pos hp]
      refine ⟨by simp [hc], ?_, by simp [hc, hp], by intro hn; exact absurd hc hn⟩
      simp only [reduceCtorEq, false_iff]
      rintro ⟨-, hlt⟩
      exact absurd hlt (lt_asymm hp)
    · rw [if_neg hp]
      have hneg : cx - sx < 0 := lt_of_le_of_ne (le_of_not_lt hp) hdx
      refine ⟨by simp [hc], by simp [hc, hneg], ?_, by intro hn; exact absurd hc hn⟩
      simp only [reduceCtorEq, false_iff]
      rintro ⟨-, hlt⟩
      exact absurd hlt hp
  · rw [hcompute, if_neg hc]
    refine ⟨by simp [hc], by simp [hc], by simp [hc], ?_⟩
    intro _
    exact ⟨rfl, snap_currentStage _⟩

/-- Witness for C2: a 60 px left drag over 1000 ms (slow, but past the
distance threshold) from stage 0 commits to `nextStage`. -/
theorem drag_commit_rule_witness :
    ((P2.touchEnd 1000 ⟨0, false, true, some 0, some 0, some 0, some (-60), some 0⟩).2.2
          = .committedNext
        ∨ (P2.touchEnd 1000 ⟨0, false, true, some 0, some 0, some 0, some (-60), some 0⟩).2.2
          = .committedPrevious
      ↔ 50 < |(-60 : ℚ) - 0| ∨ 3/10 < |(-60 : ℚ) - 0| / (1000 - 0)) ∧
    ((P2.touchEnd 1000 ⟨0, false, true, some 0, some 0, some 0, some (-60), some 0⟩).2.2
          = .committedNext
      ↔ (50 < |(-60 : ℚ) - 0| ∨ 3/10 < |(-60 : ℚ) - 0| / (1000 - 0)) ∧ (-60 : ℚ) - 0 < 0) ∧
    ((P2.touchEnd 1000 ⟨0, false, true, some 0, some 0, some 0, some (-60), some 0⟩).2.2
          = .committedPrevious
      ↔ (50 < |(-60 : ℚ) - 0| ∨ 3/10 < |(-60 : ℚ) - 0| / (1000 - 0)) ∧ (0 : ℚ) < (-60 : ℚ) - 0) ∧
    (¬ (50 < |(-60 : ℚ) - 0| ∨ 3/10 < |(-60 : ℚ) - 0| / (1000 - 0)) →
      (P2.touchEnd 1000 ⟨0, false, true, some 0, some 0, some 0, some (-60), some 0⟩).2.2
          = .snappedBack
        ∧ (P2.touchEnd 1000 ⟨0, false, true, some 0, some 0, some 0, some (-60), some 0⟩).1.currentStage
          = (0 : ℤ)) :=
  drag_commit_rule ⟨0, false, true, some 0, some 0, some 0, some (-60), some 0⟩
    (-60) 0 0 1000 rfl rfl rfl rfl (by norm_num)

/-- C1 counterexample: the claimed "a record matching in all three
fields scores exactly 23" fails on the `part_002` scorer
(`performSearch`): for the indexed project
`⟨7, "shade palace", "cool shade spot", "shade", "easy"⟩` and the query
`"shade"`, title, description and category all match, yet the score is
26, because the concatenated `searchText` field adds a fourth weight
of 3. -/
theorem score_all_three_counterexample :
    jsIncludes (jsToLower (P2.projectIndexItem
        ⟨7, "shade palace", "cool shade spot", "shade", "easy"⟩).title) "shade" = true
      ∧ jsIncludes (jsToLower (P2.projectIndexItem
        ⟨7, "shade palace", "cool shade spot", "shade", "easy"⟩).description) "shade" = true
      ∧ truthyIncludes (P2.projectIndexItem
        ⟨7, "shade palace", "cool shade spot", "shade", "easy"⟩).category "shade" = true
      ∧ P2.itemScore (P2.projectIndexItem
        ⟨7, "shade palace", "cool shade spot", "shade", "easy"⟩) "shade" = 26
      ∧ ¬ P2.itemScore (P2.projectIndexItem
        ⟨7, "shade palace", "cool shade spot", "shade", "easy"⟩) "shade" = 23 := by
  decide

/-- C1 amended: in the `part_001` scorer (`calculateSearchScore`) the
relevance score is exactly the sum of the three independent additive
field weights (+10 title, +5 description, +8 for a present, non-empty
category), so an all-three match scores exactly 23 and a no-match
record scores 0; the `part_002` scorer (`performSearch`) additionally
adds +3 per query word contained in the concatenated
`searchText`, so there an all-three-field match on a one-word query
scores 26 rather than 23. -/
theorem additive_score_amended (query : String) (item : Item)
    (word : String) (entry : P2.IndexItem) :
    P1.calculateSearchScore query item
        = (if jsIncludes (jsToLower item.title) query then 10 else 0)
          + (if jsIncludes (jsToLower item.description) query then 5 else 0)
          + (if truthyIncludes item.category query then 8 else 0)
      ∧ (jsIncludes (jsToLower item.title) query = true →
          jsIncludes (jsToLower item.description) query = true →
          truthyIncludes item.category query = true →
          P1.calculateSearchScore query item = 23)
      ∧ (jsIncludes (jsToLower item.title) query = false →
          jsIncludes (jsToLower item.description) query = false →
          truthyIncludes item.category query = false →
          P1.calculateSearchScore query item = 0)
      ∧ P2.scoreWord entry word
          = (if jsIncludes (jsToLower entry.title) word then 10 else 0)
            + (if jsIncludes (jsToLower entry.description) word then 5 else 0)
            + (if truthyIncludes entry.category word then 8 else 0)
            + (if jsIncludes entry.searchText word then 3 else 0) := by
  unfold P1.calculateSearchScore P2.scoreWord
  refine ⟨?_, ?_, ?_, ?_⟩
  · by_cases h1 : jsIncludes (jsToLower item.title) query
      <;> by_cases h2 : jsIncludes (jsToLower item.description) query
      <;> by_cases h3 : truthyIncludes item.category query
      <;> simp [h1, h2, h3]
  · intro h1 h2 h3
    simp [h1, h2, h3]
  · intro h1 h2 h3
    simp [h1, h2, h3]
  · by_cases h1 : jsIncludes (jsToLower entry.title) word
      <;> by_cases h2 : jsIncludes (jsToLower entry.description) word
      <;> by_cases h3 : truthyIncludes entry.category word
      <;> by_cases h4 : jsIncludes entry.searchText word
      <;> simp [h1, h2, h3, h4]

/-- Witness for the amended C1 statement: the all-three-fields record of
the example in the specification scores exactly 23 under
`calculateSearchScore`. -/
theorem additive_score_amended_witness :
    P1.calculateSearchScore "shade"
        ⟨1, "Monkey Hut Shade Palace", "a shade structure", some "shade"⟩ = 23 :=
  (additive_score_amended "shade"
      ⟨1, "Monkey Hut Shade Palace", "a shade structure", some "shade"⟩
      "x" ⟨0, "shop", "", "", none, none, ""⟩).2.1
    (by decide) (by decide) (by decide)

/-- The contract of the specification for one search call, stated against the
`part_001` pipeline: at most 10 results, only strictly positive scores,
descending by score, obtained by truncating a list that is a sorted
permutation of exactly the positive-scoring members of the combined
candidate pool in which ties keep encounter order, and an empty catalog
yields an empty result list. -/
def SearchContract (projects shopItems : List Item) (query : String) : Prop :=
  (P1.handleSearch projects shopItems query).length ≤ 10
    ∧ (∀ r ∈ P1.handleSearch projects shopItems query, 0 < r.score)
    ∧ List.Sorted (keyDesc SearchResult.score) (P1.handleSearch projects shopItems query)
    ∧ (∃ full : List SearchResult,
        P1.handleSearch projects shopItems query = full.take 10
          ∧ List.Perm full (searchPositives projects shopItems query)
          ∧ List.Sorted (keyDesc SearchResult.score) full
          ∧ (∀ s : ℕ, full.filter (fun x => x.score == s)
              = (searchPositives projects shopItems query).filter (fun x => x.score == s)))
    ∧ (projects = [] → shopItems = [] → P1.handleSearch projects shopItems query = [])

/-- C3: for every query of length at least 2 and every catalog,
`searchContent` returns exactly the strictly-positive-scoring records of
the concatenated projects-then-shop pool, sorted descending by score
with ties in encounter order (stable), truncated to at most the top 10
combined; an empty catalog yields an empty list. -/
theorem search_pipeline_contract (projects shopItems : List Item) (query : String)
    (h2 : 2 ≤ query.length) : SearchContract projects shopItems query := by
  have hnot : ¬ query.length < 2 := by omega
  have hres : P1.handleSearch projects shopItems query
      = (List.insertionSort (keyDesc SearchResult.score)
          (searchPositives projects shopItems query)).take 10 := by
    unfold P1.handleSearch
    rw [if_neg hnot]
    unfold P1.searchContent searchPositives searchPool
    dsimp only
    rw [filterMap_guard_eq (P1.projectResult (jsToLower query)) SearchResult.score projects,
        filterMap_guard_eq (P1.shopResult (jsToLower query)) SearchResult.score shopItems,
        List.filter_append]
  have hsortedFull : List.Sorted (keyDesc SearchResult.score)
      (List.insertionSort (keyDesc SearchResult.score)
        (searchPositives projects shopItems query)) :=
    List.sorted_insertionSort (keyDesc SearchResult.score) _
  refine ⟨?_, ?_, ?_, ?_, ?_⟩
  · rw [hres]
    exact List.length_take_le 10 _
  · intro r hr
    rw [hres] at hr
    have hr1 : r ∈ List.insertionSort (keyDesc SearchResult.score)
        (searchPositives projects shopItems query) :=
      (List.take_sublist 10 _).subset hr
    have hr2 : r ∈ searchPositives projects shopItems query :=
      (List.perm_insertionSort (keyDesc SearchResult.score) _).mem_iff.mp hr1
    exact of_decide_eq_true (List.mem_filter.mp hr2).2
  · rw [hres]
    exact hsortedFull.sublist (List.take_sublist 10 _)
  · exact ⟨List.insertionSort (keyDesc SearchResult.score)
        (searchPositives projects shopItems query),
      hres,
      List.perm_insertionSort (keyDesc SearchResult.score) _,
      hsortedFull,
      fun s => filter_key_insertionSort SearchResult.score s _⟩
  · intro hp hq
    subst hp
    subst hq
    rw [hres]
    rfl

/-- Witness for C3 on the example record of the specification and the query
`"shade"`. -/
theorem search_pipeline_contract_witness :
    2 ≤ "shade".length
      ∧ SearchContract
          [⟨1, "Monkey Hut Shade Palace", "a shade structure", some "shade"⟩]
          [] "shade" :=
  ⟨by decide,
    search_pipeline_contract
      [⟨1, "Monkey Hut Shade Palace", "a shade structure", some "shade"⟩]
      [] "shade" (by decide)⟩
